import Mathlib

/-!
Shallow embedding of the moving-object Chebyshev fitting and evaluation code
of this repository (`python/lsst/sims/movingObjects/chebyshev.py` and
`python/lsst/sims/movingObjects/chebyValues.py`), together with theorems
checking the documented behaviour of the code.

Numbers are modelled as exact rationals (every float literal appearing in the
source is an exact binary fraction, so this is faithful for the arithmetic the
claims are about).  External numeric primitives (`chebyshevUtils.chebeval`,
`numpy.cos`, `numpy.radians`) are modelled as parameters of the evaluation
functions, since they are outside of the fitting/evaluation code itself.
-/

set_option maxHeartbeats 1000000

namespace MovingObjects

/-- Values stored on `self` by a successful call of `ChebyFits._setGranularity`:
`self.timestep`, `self.ngran`, `self.length`. -/
structure Granularity where
  timestep : ℚ
  ngran : ℕ
  length : ℚ
  deriving Repr, DecidableEq

/-- Embedding of `ChebyFits._setGranularity` (chebyshev.py lines 78-118).
The method first sets `self.ngran = 64`, then walks an `if`/`elif` chain.
Only the first branch tests the actual parameter `distance_moved`; every
later branch reads the name `distance`, which is defined nowhere in the
module, so any call with `distance_moved >= 0.8` raises `NameError` at the
first `elif` before a timestep is assigned.  On the `distance_moved < 0.8`
branch the method sets `timestep = 0.03125` and `length = ngran * timestep`. -/
def setGranularity (distance_moved : ℚ) : Except String Granularity :=
  if distance_moved < 0.8 then
    .ok { timestep := 0.03125, ngran := 64, length := 64 * (0.03125 : ℚ) }
  else
    .error "NameError: name distance is not defined"

/-- The shrink-factor table of `ChebyFits._updateGranularity`
(chebyshev.py lines 130-140), factored out of the method body:
a step function of the positional residual `p_resid` (in mas). -/
def shrinkFactor (p_resid : ℚ) : ℚ :=
  if p_resid > 1000 then 16
  else if p_resid > 100 then 8
  else if p_resid > 15 then 6
  else if p_resid > 5 then 4
  else if p_resid > 2 then 2
  else 1

/-- Embedding of `ChebyFits._updateGranularity` (chebyshev.py lines 120-146):
divides `self.timestep` and `self.length` by a factor chosen from the
residual, then halves both once more when the declination is beyond 75
degrees from the equator.  Returns the new `(timestep, length)` pair. -/
def updateGranularity (timestep length p_resid dec : ℚ) : ℚ × ℚ :=
  let factor : ℚ :=
    if p_resid > 1000 then 16
    else if p_resid > 100 then 8
    else if p_resid > 15 then 6
    else if p_resid > 5 then 4
    else if p_resid > 2 then 2
    else 1
  let timestep := timestep / factor
  let length := length / factor
  if dec < -75 ∨ dec > 75 then (timestep / 2, length / 2) else (timestep, length)

/-- Embedding of the scalar unwrap helper `v_three_sixy_to_neg`
(chebyshev.py lines 10-17).  `mn` and `mx` are the `min`/`max` arguments. -/
def v_three_sixy_to_neg (element mn mx : ℚ) : ℚ :=
  if mn < 100 ∧ mx > 270 then
    if element > 270 then element - 360 else element
  else element

/-- C3: the claim says `_setGranularity` maps every angular speed to a
timestep from a monotone step table of at least 8 bands.  The code does not:
only speeds below 0.8 deg/day reach an assignment; at any speed of 0.8
deg/day or more the `elif` chain reads the undefined name `distance` and the
call raises `NameError` (for instance at speed 1, where the docstring of the
method promises a 1/64 day timestep).  Below 0.8 deg/day the slowest band
does return timestep 1/32 day, ngran 64 and length 64 times the timestep. -/
theorem setGranularity_raises_NameError :
    setGranularity 0.5 = .ok { timestep := 1/32, ngran := 64, length := 2 } ∧
    setGranularity 1 = .error "NameError: name distance is not defined" ∧
    setGranularity 200 = .error "NameError: name distance is not defined" := by
  refine ⟨?_, ?_, ?_⟩ <;> with_unfolding_all rfl

/-- C4: `_updateGranularity` divides both timestep and length by a shrink
factor that is a step function of the residual with values 1, 2, 4, 6, 8, 16,
and independently halves both again when the declination lies beyond plus or
minus 75 degrees; the factor at a residual of 20 mas is 6, and with
declination -80 degrees the resulting length is 1/12 of the input length. -/
theorem updateGranularity_factor_table (ts len p_resid dec : ℚ) :
    updateGranularity ts len p_resid dec =
      (if dec < -75 ∨ dec > 75 then
        (ts / shrinkFactor p_resid / 2, len / shrinkFactor p_resid / 2)
      else
        (ts / shrinkFactor p_resid, len / shrinkFactor p_resid)) ∧
    shrinkFactor p_resid ∈ ({1, 2, 4, 6, 8, 16} : Set ℚ) ∧
    shrinkFactor 20 = 6 ∧
    updateGranularity ts len 20 (-80) = (ts / 12, len / 12) := by
  refine ⟨rfl, ?_, ?_, ?_⟩
  · unfold shrinkFactor
    split_ifs <;> simp [Set.mem_insert_iff]
  · norm_num [shrinkFactor]
  · have h6 : shrinkFactor 20 = 6 := by norm_num [shrinkFactor]
    show (if (-80:ℚ) < -75 ∨ (-80:ℚ) > 75 then
        (ts / shrinkFactor 20 / 2, len / shrinkFactor 20 / 2)
      else (ts / shrinkFactor 20, len / shrinkFactor 20)) = (ts / 12, len / 12)
    rw [h6, if_pos (by norm_num)]
    simp only [Prod.mk.injEq]
    constructor <;> ring

/-- C5: for positive timestep and length, `_updateGranularity` never
increases either; and when the residual exceeds the 2.5 mas tolerance the
resulting length is strictly smaller than the input length. -/
theorem updateGranularity_never_increases (ts len p_resid dec : ℚ)
    (hts : 0 < ts) (hlen : 0 < len) :
    (updateGranularity ts len p_resid dec).1 ≤ ts ∧
    (updateGranularity ts len p_resid dec).2 ≤ len ∧
    (5/2 < p_resid → (updateGranularity ts len p_resid dec).2 < len) := by
  unfold updateGranularity
  split_ifs <;>
    exact ⟨by dsimp only; linarith, by dsimp only; linarith,
      fun hr => by dsimp only; linarith⟩

/-- Witness for C5 at timestep 1, length 1, residual 3, declination 0. -/
theorem updateGranularity_never_increases_witness :
    (updateGranularity 1 1 3 0).1 ≤ 1 ∧
    (updateGranularity 1 1 3 0).2 ≤ 1 ∧
    ((5:ℚ)/2 < 3 → (updateGranularity 1 1 3 0).2 < 1) :=
  updateGranularity_never_increases 1 1 3 0 (by norm_num) (by norm_num)

/-- C7: the unwrap helper shifts an element by -360 exactly when the window
minimum is below 100 degrees, the window maximum is above 270 degrees and the
element itself is above 270 degrees, and returns every other element
unchanged. -/
theorem v_three_sixy_to_neg_rule (element mn mx : ℚ) :
    (mn < 100 → mx > 270 →
      ((element > 270 → v_three_sixy_to_neg element mn mx = element - 360) ∧
       (¬element > 270 → v_three_sixy_to_neg element mn mx = element))) ∧
    (mn ≥ 100 ∨ mx ≤ 270 → v_three_sixy_to_neg element mn mx = element) := by
  unfold v_three_sixy_to_neg
  constructor
  · intro h1 h2
    constructor
    · intro h3
      rw [if_pos ⟨h1, h2⟩, if_pos h3]
    · intro h3
      rw [if_pos ⟨h1, h2⟩, if_neg h3]
  · intro h
    rw [if_neg]
    rcases h with h | h
    · exact fun hc => absurd h (by linarith [hc.1])
    · exact fun hc => absurd h (by linarith [hc.2])

/-- Witness for C7: the window [50, 300] straddles the wrap and the element
280 is shifted down to -80. -/
theorem v_three_sixy_to_neg_rule_witness :
    v_three_sixy_to_neg 280 50 300 = 280 - 360 :=
  ((v_three_sixy_to_neg_rule 280 50 300).1 (by norm_num) (by norm_num)).1 (by norm_num)

/-- The parallel coefficient arrays of `ChebyValues.coeffs` as seen by the
evaluation path (`_evalSegment` and `getEphemerides`): one entry per stored
segment, with the per-quantity arrays in `[segment, coefficient]` order.
Object ids are modelled as rationals (the code allows int or str ids and
only ever compares them for equality). -/
structure ChebyCoeffs where
  objId : List ℚ
  tStart : List ℚ
  tEnd : List ℚ
  ra : List (List ℚ)
  dec : List (List ℚ)
  delta : List (List ℚ)
  vmag : List (List ℚ)
  elongation : List (List ℚ)
  deriving Repr, DecidableEq

/-- External numeric primitives used by the evaluation path, passed in as
data: `chebeval t coeffs interval` models
`chebyshevUtils.chebeval(t, coeffs, interval=interval, doVelocity=True)`
returning the (value, derivative) pair, and `cos`/`radians` model
`numpy.cos`/`numpy.radians`. -/
structure ChebPrim where
  chebeval : ℚ → List ℚ → ℚ × ℚ → ℚ × ℚ
  cos : ℚ → ℚ
  radians : ℚ → ℚ

/-- Boolean-mask indexing `xs[mask]` of numpy, keeping the entries of `xs`
at the positions where `mask` holds. -/
def maskFilter {α : Type} (mask : List Bool) (xs : List α) : List α :=
  ((mask.zip xs).filter (fun p => p.1)).map Prod.snd

/-- The dictionary returned by `ChebyValues._evalSegment` for one segment. -/
structure Ephemeris where
  ra : ℚ
  dradt : ℚ
  dec : ℚ
  ddecdt : ℚ
  delta : ℚ
  vmag : ℚ
  elongation : ℚ
  deriving Repr, DecidableEq

/-- Embedding of `ChebyValues._evalSegment` (chebyValues.py lines 73-110).
`subsetSegments = none` models the default `None` argument, which the method
replaces by an all-ones mask.  The method rejects a time strictly below
`tStart` or strictly above `tEnd`, rescales the time to the segment interval,
evaluates each quantity with `chebeval`, and multiplies the raw RA derivative
by `cos(radians(dec))`.  Out-of-range list indexing (an `IndexError` in the
code) is modelled by a default of 0, which none of the theorems rely on. -/
def evalSegment (prim : ChebPrim) (c : ChebyCoeffs) (segmentIdx : ℕ) (time : ℚ)
    (subsetSegments : Option (List Bool)) : Except String Ephemeris :=
  let mask := subsetSegments.getD (List.replicate c.objId.length true)
  let tStart := (maskFilter mask c.tStart).getD segmentIdx 0
  let tEnd := (maskFilter mask c.tEnd).getD segmentIdx 0
  if time < tStart ∨ time > tEnd then
    .error "Time requested is out of bounds for segment index."
  else
    let tScaled := time - tStart
    let tInterval : ℚ × ℚ := (tStart - tStart, tEnd - tStart)
    let raE := prim.chebeval tScaled ((maskFilter mask c.ra).getD segmentIdx []) tInterval
    let decE := prim.chebeval tScaled ((maskFilter mask c.dec).getD segmentIdx []) tInterval
    .ok { ra := raE.1
          dradt := raE.2 * prim.cos (prim.radians decE.1)
          dec := decE.1
          ddecdt := decE.2
          delta := (prim.chebeval tScaled ((maskFilter mask c.delta).getD segmentIdx []) tInterval).1
          vmag := (prim.chebeval tScaled ((maskFilter mask c.vmag).getD segmentIdx []) tInterval).1
          elongation := (prim.chebeval tScaled ((maskFilter mask c.elongation).getD segmentIdx []) tInterval).1 }

/-- Model of `numpy.unique`: the distinct values of a list in increasing
order. -/
def npUnique (xs : List ℚ) : List ℚ :=
  List.insertionSort (fun a b => a ≤ b) xs.dedup

/-- The segment-index selection of `getEphemerides` (chebyValues.py line 139):
`np.where((tStart[objMatch] <= time) & (tEnd[objMatch] > time))[0]`, the
indices into the masked arrays whose segment interval contains `time` under
the right-open convention. -/
def matchedSegments (c : ChebyCoeffs) (objMatch : List Bool) (time : ℚ) : List ℕ :=
  (List.range (maskFilter objMatch c.tStart).length).filter
    (fun i => decide ((maskFilter objMatch c.tStart).getD i 0 ≤ time ∧
      time < (maskFilter objMatch c.tEnd).getD i 0))

/-- The record returned by `ChebyValues.getEphemerides`: parallel arrays over
the requested (or stored) object ids. -/
structure Ephemerides where
  objId : List ℚ
  time : List ℚ
  ra : List ℚ
  dradt : List ℚ
  dec : List ℚ
  ddecdt : List ℚ
  delta : List ℚ
  vmag : List ℚ
  elongation : List ℚ
  deriving Repr, DecidableEq

/-- One iteration of the assignment loop of `getEphemerides`
(chebyValues.py lines 140-144): the evaluation of matched segment `p.2` is
written at output position `p.1`, and the output id at that position is
overwritten with the matched segment id. -/
def ephStep (prim : ChebPrim) (c : ChebyCoeffs) (time : ℚ) (objMatch : List Bool)
    (acc : Except String Ephemerides) (p : ℕ × ℕ) : Except String Ephemerides :=
  acc.bind (fun eph =>
    (evalSegment prim c p.2 time (some objMatch)).map (fun e =>
      { objId := eph.objId.set p.1 ((maskFilter objMatch c.objId).getD p.2 0)
        time := eph.time
        ra := eph.ra.set p.1 e.ra
        dradt := eph.dradt.set p.1 e.dradt
        dec := eph.dec.set p.1 e.dec
        ddecdt := eph.ddecdt.set p.1 e.ddecdt
        delta := eph.delta.set p.1 e.delta
        vmag := eph.vmag.set p.1 e.vmag
        elongation := eph.elongation.set p.1 e.elongation }))

/-- Embedding of `ChebyValues.getEphemerides` (chebyValues.py lines 112-148).
With `objIds = none` the method matches every stored segment and lists the
unique stored ids; with `objIds = some ids` it masks the stored segments by
membership in `ids` and assigns the request array itself to
`ephemerides[objId]` (line 135), so the two names alias one array from then
on.  All value columns start zero-filled; each matched segment (in
masked-index order) is evaluated and written by `ephStep`.  Finally, when
`objIds` was given, the method compares `set(ephemerides[objId])` with
`set(objIds)` — but because of the aliasing both sides are the same mutated
array, so the comparison is of the output ids with themselves and the
`ValueError` branch is dead code. -/
def getEphemerides (prim : ChebPrim) (c : ChebyCoeffs) (time : ℚ)
    (objIds : Option (List ℚ)) : Except String Ephemerides :=
  let objMatch : List Bool :=
    match objIds with
    | none => List.replicate c.objId.length true
    | some ids => c.objId.map (fun o => ids.contains o)
  let initIds : List ℚ :=
    match objIds with
    | none => npUnique c.objId
    | some ids => ids
  let n := initIds.length
  let init : Ephemerides :=
    { objId := initIds
      time := List.replicate n time
      ra := List.replicate n 0
      dradt := List.replicate n 0
      dec := List.replicate n 0
      ddecdt := List.replicate n 0
      delta := List.replicate n 0
      vmag := List.replicate n 0
      elongation := List.replicate n 0 }
  let folded := (matchedSegments c objMatch time).enum.foldl
    (ephStep prim c time objMatch) (.ok init)
  folded.bind (fun eph =>
    match objIds with
    | none => .ok eph
    | some _ =>
        if eph.objId.toFinset ≠ eph.objId.toFinset then
          .error "Expected to find match between objIds provided and ephemeride objIds, but did not"
        else
          .ok eph)

/-- A concrete instantiation of the external numeric primitives, used to
evaluate the embedding on concrete inputs: `chebeval` returns the first
coefficient as the value and the second as the derivative, `cos` is
`fun x => x + 1` and `radians` is `fun x => x - 2`. -/
def exPrim : ChebPrim :=
  { chebeval := fun _ cs _ => (cs.getD 0 0, cs.getD 1 0)
    cos := fun x => x + 1
    radians := fun x => x - 2 }

/-- A concrete coefficient table with a single stored segment for object id 1
valid on the interval [0, 1). -/
def exCoeffs : ChebyCoeffs :=
  { objId := [1]
    tStart := [0]
    tEnd := [1]
    ra := [[5, 7]]
    dec := [[3, 2]]
    delta := [[4]]
    vmag := [[6]]
    elongation := [[8]] }

/-- A numpy array stored as a value of the `ChebyValues.coeffs` dictionary:
either one-dimensional (ids, segment times, mean columns) or two-dimensional
(per-quantity coefficient arrays). -/
inductive NpArr where
  | oneD (xs : List ℚ)
  | twoD (m : List (List ℚ))
  deriving Repr, DecidableEq

/-- The `ChebyValues.coeffs` dictionary, with insertion-ordered keys. -/
abbrev CoeffDict := List (String × NpArr)

/-- `ChebyValues.coeffKeys` (chebyValues.py line 17). -/
def coeffKeys : List String :=
  ["objId", "tStart", "tEnd", "ra", "dec", "delta", "vmag", "elongation"]

/-- `numpy.swapaxes(0, 1)` on a two-dimensional array, modelled by index:
row `j` of the result collects entry `j` of every row of `m`, and the row
count is the length of the first row of `m`. -/
def swapaxes (m : List (List ℚ)) : List (List ℚ) :=
  (List.range (m.headD []).length).map (fun j => m.map (fun row => row.getD j 0))

/-- Lookup of a two-dimensional entry of the coefficient dictionary. -/
def dictMat (d : CoeffDict) (k : String) : List (List ℚ) :=
  match d.lookup k with
  | some (.twoD m) => m
  | _ => []

/-- The state of a `ChebyValues` object: its `coeffs` dictionary. -/
structure ChebyValuesState where
  coeffs : CoeffDict
  deriving Repr, DecidableEq

/-- Embedding of `ChebyValues.setCoefficients` (chebyValues.py lines 20-37).
The method first installs the supplied dictionary as `self.coeffs`
(converting each value to a numpy array, the identity in this model), only
then checks that all of `coeffKeys` are present — raising `ValueError`
otherwise — and on success appends the derived `meanRA`/`meanDec` entries,
each computed as `coeffs[quantity].swapaxes(0, 1)[0]`.  The result is the
new object state together with the raised error message, when any. -/
def setCoefficients (s : ChebyValuesState) (chebyFitsCoeffs : CoeffDict) :
    ChebyValuesState × Option String :=
  let s := { s with coeffs := chebyFitsCoeffs }
  if coeffKeys.all (fun k => (s.coeffs.map Prod.fst).contains k) then
    ({ s with coeffs := s.coeffs ++
        [("meanRA", .oneD ((swapaxes (dictMat s.coeffs "ra")).getD 0 [])),
         ("meanDec", .oneD ((swapaxes (dictMat s.coeffs "dec")).getD 0 []))] }, none)
  else
    (s, some "Did not receive all expected coefficient keys from chebyFitsCoefficients")

/-- Rows of the persisted coefficient file as parsed by `pandas.read_table`:
one row per segment, with the run of per-quantity coefficient columns
`quantity_0 .. quantity_{k-1}` of each row collected into a list. -/
structure CoeffFile where
  objId : List ℚ
  tStart : List ℚ
  tEnd : List ℚ
  ra : List (List ℚ)
  dec : List (List ℚ)
  delta : List (List ℚ)
  vmag : List (List ℚ)
  elongation : List (List ℚ)
  deriving Repr, DecidableEq

/-- Embedding of `ChebyValues.readCoefficients` (chebyValues.py lines 39-71)
as called on a freshly constructed `ChebyValues` object.  For each quantity
the code first builds the `[nCoeff, nSegment]` array whose row `i` is the
file column `quantity_i` — which is `swapaxes` of the per-segment rows —
then stores `meanRA`/`meanDec` as row 0 of the pre-swap `ra`/`dec` arrays,
and finally swaps each quantity array back to `[segment, coefficient]`
order.  The file-existence check and the text parsing are outside the model;
the dictionary insertion order matches the code. -/
def readCoefficients (file : CoeffFile) : ChebyValuesState :=
  { coeffs :=
      [("objId", .oneD file.objId),
       ("tStart", .oneD file.tStart),
       ("tEnd", .oneD file.tEnd),
       ("ra", .twoD (swapaxes (swapaxes file.ra))),
       ("dec", .twoD (swapaxes (swapaxes file.dec))),
       ("delta", .twoD (swapaxes (swapaxes file.delta))),
       ("vmag", .twoD (swapaxes (swapaxes file.vmag))),
       ("elongation", .twoD (swapaxes (swapaxes file.elongation))),
       ("meanRA", .oneD ((swapaxes file.ra).getD 0 [])),
       ("meanDec", .oneD ((swapaxes file.dec).getD 0 []))] }

/-- Reading the entries of a row at the indices `0 .. length - 1` rebuilds
the row. -/
theorem range_map_getD (r : List ℚ) :
    (List.range r.length).map (fun i => r.getD i 0) = r := by
  induction r with
  | nil => rfl
  | cons a t ih =>
      rw [List.length_cons, List.range_succ_eq_map, List.map_cons, List.map_map]
      simp only [Function.comp_def, List.getD_cons_zero, List.getD_cons_succ]
      rw [ih]

/-- On a rectangular array with a positive column count, `swapaxes` is an
involution. -/
theorem swapaxes_swapaxes (m : List (List ℚ)) (k : ℕ) (hk : 0 < k)
    (hrect : ∀ r ∈ m, r.length = k) :
    swapaxes (swapaxes m) = m := by
  cases m with
  | nil => rfl
  | cons a t =>
      have ha : a.length = k := hrect a (List.mem_cons_self a t)
      have h1 : swapaxes (a :: t) =
          (List.range k).map (fun j => (a :: t).map (fun row => row.getD j 0)) := by
        unfold swapaxes
        rw [List.headD_cons, ha]
      obtain ⟨k1, rfl⟩ : ∃ k1, k = k1 + 1 := ⟨k - 1, by omega⟩
      have h2 : (swapaxes (a :: t)).headD [] = (a :: t).map (fun row => row.getD 0 0) := by
        rw [h1, List.range_succ_eq_map, List.map_cons, List.headD_cons]
      have h3 : swapaxes (swapaxes (a :: t)) =
          (List.range (a :: t).length).map
            (fun i => (swapaxes (a :: t)).map (fun row => row.getD i 0)) := by
        conv_lhs => rw [swapaxes]
        rw [h2, List.length_map]
      rw [h3]
      apply List.ext_getElem
      · simp
      · intro i hi hlen
        rw [List.getElem_map, List.getElem_range, h1, List.map_map]
        have hi2 : i < (a :: t).length := by simpa using hi
        have hcongr : ∀ j ∈ List.range (k1 + 1),
            (((a :: t).map (fun row => row.getD j 0)).getD i 0) =
              ((a :: t)[i].getD j 0) := by
          intro j _
          rw [List.getD_eq_getElem?_getD, List.getElem?_map,
            List.getElem?_eq_getElem hi2]
          rfl
        calc (List.range (k1 + 1)).map
              ((fun row => row.getD i 0) ∘ fun j => (a :: t).map (fun row => row.getD j 0))
            = (List.range (k1 + 1)).map (fun j => (a :: t)[i].getD j 0) :=
              List.map_congr_left hcongr
          _ = (a :: t)[i] := by
              rw [show k1 + 1 = (a :: t)[i].length from
                (hrect _ (List.getElem_mem hi2)).symm]
              exact range_map_getD _

/-- Row 0 of the `swapaxes` of a rectangular array with a positive column
count is the column of the degree-0 entries. -/
theorem swapaxes_row_zero (m : List (List ℚ)) (k : ℕ) (hk : 0 < k)
    (hrect : ∀ r ∈ m, r.length = k) :
    (swapaxes m).getD 0 [] = m.map (fun row => row.getD 0 0) := by
  cases m with
  | nil => rfl
  | cons a t =>
      have ha : a.length = k := hrect a (List.mem_cons_self a t)
      obtain ⟨k1, rfl⟩ : ∃ k1, k = k1 + 1 := ⟨k - 1, by omega⟩
      unfold swapaxes
      rw [List.headD_cons, ha, List.range_succ_eq_map, List.map_cons,
        List.getD_cons_zero]

/-- C9: `_evalSegment` raises its out-of-bounds error exactly when the query
time is strictly below the segment `tStart` or strictly above the segment
`tEnd`; in particular a query at exactly `tEnd` is accepted and evaluated
(closed-interval check), in contrast with the right-open batch lookup. -/
theorem evalSegment_closed_bounds (prim : ChebPrim) (c : ChebyCoeffs) (idx : ℕ)
    (time tS tE : ℚ) (subset : Option (List Bool))
    (htS : (maskFilter (subset.getD (List.replicate c.objId.length true)) c.tStart).getD idx 0 = tS)
    (htE : (maskFilter (subset.getD (List.replicate c.objId.length true)) c.tEnd).getD idx 0 = tE) :
    ((∃ e, evalSegment prim c idx time subset = .ok e) ↔ (tS ≤ time ∧ time ≤ tE)) ∧
    ((time < tS ∨ time > tE) → evalSegment prim c idx time subset =
      .error "Time requested is out of bounds for segment index.") := by
  simp only [evalSegment]
  subst htS htE
  split_ifs with h
  · constructor
    · constructor
      · rintro ⟨e, he⟩
        exact absurd he (by simp)
      · intro hin
        rcases h with h | h
        · exact absurd hin.1 (by linarith)
        · exact absurd hin.2 (by linarith)
    · intro _
      rfl
  · push_neg at h
    constructor
    · constructor
      · intro _
        exact h
      · intro _
        exact ⟨_, rfl⟩
    · intro hc
      rcases hc with hc | hc
      · exact absurd hc (not_lt.mpr h.1)
      · exact absurd hc (not_lt.mpr h.2)

/-- Witness for C9: with the stored segment [0, 1], a query at time 2 is
rejected by `_evalSegment` with the out-of-bounds error. -/
theorem evalSegment_closed_bounds_witness :
    evalSegment exPrim exCoeffs 0 2 none =
      .error "Time requested is out of bounds for segment index." :=
  (evalSegment_closed_bounds exPrim exCoeffs 0 2 0 1 none rfl rfl).2
    (Or.inr (by norm_num))

/-- C6: a successful `_evalSegment` evaluation returns an alpha rate equal to
the raw chebeval derivative of the RA coefficient row multiplied by
`cos (radians dec)` at the evaluated declination, while the delta rate is the
raw chebeval derivative of the Dec coefficient row with no such correction. -/
theorem evalSegment_cos_correction (prim : ChebPrim) (c : ChebyCoeffs) (idx : ℕ)
    (time tS tE : ℚ) (raRow decRow : List ℚ) (subset : Option (List Bool))
    (e : Ephemeris)
    (htS : (maskFilter (subset.getD (List.replicate c.objId.length true)) c.tStart).getD idx 0 = tS)
    (htE : (maskFilter (subset.getD (List.replicate c.objId.length true)) c.tEnd).getD idx 0 = tE)
    (hra : (maskFilter (subset.getD (List.replicate c.objId.length true)) c.ra).getD idx [] = raRow)
    (hdec : (maskFilter (subset.getD (List.replicate c.objId.length true)) c.dec).getD idx [] = decRow)
    (hok : evalSegment prim c idx time subset = .ok e) :
    e.dec = (prim.chebeval (time - tS) decRow (0, tE - tS)).1 ∧
    e.dradt = (prim.chebeval (time - tS) raRow (0, tE - tS)).2 *
      prim.cos (prim.radians e.dec) ∧
    e.ddecdt = (prim.chebeval (time - tS) decRow (0, tE - tS)).2 := by
  simp only [evalSegment] at hok
  subst htS htE hra hdec
  split_ifs at hok with h
  obtain rfl := (Except.ok.inj hok).symm
  refine ⟨?_, ?_, ?_⟩ <;> simp only [sub_self]

/-- Witness for C6: the concrete single-segment table evaluated at time 0,
where the raw RA derivative 7 is multiplied by `cos (radians 3) = 14 / 7`. -/
theorem evalSegment_cos_correction_witness :
    (⟨5, 14, 3, 2, 4, 6, 8⟩ : Ephemeris).dec =
      (exPrim.chebeval (0 - 0) [3, 2] (0, 1 - 0)).1 ∧
    (⟨5, 14, 3, 2, 4, 6, 8⟩ : Ephemeris).dradt =
      (exPrim.chebeval (0 - 0) [5, 7] (0, 1 - 0)).2 *
        exPrim.cos (exPrim.radians (⟨5, 14, 3, 2, 4, 6, 8⟩ : Ephemeris).dec) ∧
    (⟨5, 14, 3, 2, 4, 6, 8⟩ : Ephemeris).ddecdt =
      (exPrim.chebeval (0 - 0) [3, 2] (0, 1 - 0)).2 :=
  evalSegment_cos_correction exPrim exCoeffs 0 0 0 1 [5, 7] [3, 2] none
    ⟨5, 14, 3, 2, 4, 6, 8⟩ rfl rfl rfl rfl (by with_unfolding_all rfl)

/-- An `_evalSegment` call either succeeds or fails with the out-of-bounds
message: no other outcome exists. -/
theorem evalSegment_ok_or_bounds (prim : ChebPrim) (c : ChebyCoeffs) (idx : ℕ)
    (time : ℚ) (subset : Option (List Bool)) :
    (∃ e, evalSegment prim c idx time subset = .ok e) ∨
    evalSegment prim c idx time subset =
      .error "Time requested is out of bounds for segment index." := by
  simp only [evalSegment]
  split_ifs
  · right
    rfl
  · left
    exact ⟨_, rfl⟩

/-- The assignment loop of `getEphemerides` either ends in a success or in
the out-of-bounds message of `_evalSegment`: no fold step introduces any
other error. -/
theorem ephStep_foldl_ok_or_bounds (prim : ChebPrim) (c : ChebyCoeffs)
    (time : ℚ) (objMatch : List Bool) (l : List (ℕ × ℕ))
    (acc : Except String Ephemerides)
    (hacc : (∃ e, acc = .ok e) ∨
      acc = .error "Time requested is out of bounds for segment index.") :
    (∃ e, l.foldl (ephStep prim c time objMatch) acc = .ok e) ∨
    l.foldl (ephStep prim c time objMatch) acc =
      .error "Time requested is out of bounds for segment index." := by
  induction l generalizing acc with
  | nil => exact hacc
  | cons b bs ih =>
      rw [List.foldl_cons]
      apply ih
      rcases hacc with ⟨e, rfl⟩ | rfl
      · rcases evalSegment_ok_or_bounds prim c b.2 time (some objMatch) with
          ⟨v, hv⟩ | hv
        · left
          simp only [ephStep, hv, Except.bind, Except.map]
          exact ⟨_, rfl⟩
        · right
          simp only [ephStep, hv, Except.bind, Except.map]
      · exact Or.inr rfl

/-- The final guard of `getEphemerides` compares the mutated output id array
with itself, so — given that the fold can only fail with the out-of-bounds
message — the mismatch `ValueError` is unreachable. -/
theorem guard_bind_ne_mismatch (objIds : Option (List ℚ))
    (folded : Except String Ephemerides)
    (hfold : (∃ e, folded = .ok e) ∨
      folded = .error "Time requested is out of bounds for segment index.") :
    folded.bind (fun eph =>
      match objIds with
      | none => .ok eph
      | some _ =>
          if eph.objId.toFinset ≠ eph.objId.toFinset then
            .error "Expected to find match between objIds provided and ephemeride objIds, but did not"
          else
            .ok eph) ≠
      .error "Expected to find match between objIds provided and ephemeride objIds, but did not" := by
  rcases hfold with ⟨e, rfl⟩ | rfl
  · cases objIds with
    | none =>
        intro h
        simp only [Except.bind] at h
        exact Except.noConfusion h
    | some ids =>
        intro h
        simp only [Except.bind] at h
        rw [if_neg (fun hne => hne rfl)] at h
        exact Except.noConfusion h
  · intro h
    simp only [Except.bind] at h
    exact absurd (Except.error.inj h) (by decide)

/-- `getEphemerides` can never raise the mismatch `ValueError` of line 147,
for any primitives, coefficient table, time and request. -/
theorem getEphemerides_never_raises_mismatch (prim : ChebPrim) (c : ChebyCoeffs)
    (time : ℚ) (objIds : Option (List ℚ)) :
    getEphemerides prim c time objIds ≠
      .error "Expected to find match between objIds provided and ephemeride objIds, but did not" := by
  simp only [getEphemerides]
  exact guard_bind_ne_mismatch objIds _
    (ephStep_foldl_ok_or_bounds prim c time _ _ _ (Or.inl ⟨_, rfl⟩))

/-- C1: the claim says every request containing an object id with no segment
in the table raises the consistency error instead of returning a zero-filled
record.  The code can never raise it: line 135 assigns the request array
itself to `ephemerides[objId]`, so the final comparison checks the mutated
array against itself and the `ValueError` guard is dead for every request.
Requests containing the absent id 2 therefore return ok with a zero-filled
record for id 2, and the permuted request [2, 1] even returns the id list
[1, 1] — dropping the missing id and duplicating the matched one — again
with no error. -/
theorem getEphemerides_missing_id_not_detected :
    (∀ (prim : ChebPrim) (c : ChebyCoeffs) (time : ℚ) (objIds : Option (List ℚ)),
      getEphemerides prim c time objIds ≠
        .error "Expected to find match between objIds provided and ephemeride objIds, but did not") ∧
    getEphemerides exPrim exCoeffs 0 (some [2]) =
      .ok ⟨[2], [0], [0], [0], [0], [0], [0], [0], [0]⟩ ∧
    getEphemerides exPrim exCoeffs 0 (some [1, 2]) =
      .ok ⟨[1, 2], [0, 0], [5, 0], [14, 0], [3, 0], [2, 0], [4, 0], [6, 0], [8, 0]⟩ ∧
    getEphemerides exPrim exCoeffs 0 (some [2, 1]) =
      .ok ⟨[1, 1], [0, 0], [5, 0], [14, 0], [3, 0], [2, 0], [4, 0], [6, 0], [8, 0]⟩ :=
  ⟨getEphemerides_never_raises_mismatch,
   by with_unfolding_all rfl,
   by with_unfolding_all rfl,
   by with_unfolding_all rfl⟩

/-- Witness for C1: even the permuted request [2, 1] containing the absent
id 2 does not raise the mismatch error. -/
theorem getEphemerides_missing_id_not_detected_witness :
    getEphemerides exPrim exCoeffs 0 (some [2, 1]) ≠
      .error "Expected to find match between objIds provided and ephemeride objIds, but did not" :=
  getEphemerides_missing_id_not_detected.1 exPrim exCoeffs 0 (some [2, 1])

/-- Counterexample for C2: with the single stored segment [0, 1) for object
1, a query at the stored `tEnd` (time 1) does not raise any error, RangeError
included: `getEphemerides` returns an ok result whose value columns are still
zero-filled for the object. -/
theorem getEphemerides_at_tEnd_no_range_error :
    getEphemerides exPrim exCoeffs 1 (some [1]) =
      .ok ⟨[1], [1], [0], [0], [0], [0], [0], [0], [0]⟩ := by
  with_unfolding_all rfl

/-- C2 (amended): segment lookup in `getEphemerides` is right-open: a stored
segment is selected exactly when `tStart <= time < tEnd`, so a query at
exactly `tStart` resolves to the segment and succeeds, while a query at
exactly `tEnd` does not resolve to it; but no RangeError is raised when no
segment resolves — the call returns an ok, zero-filled record for the
requested id instead. -/
theorem getEphemerides_right_open_lookup (c : ChebyCoeffs) (objMatch : List Bool)
    (time : ℚ) (i : ℕ) :
    (i ∈ matchedSegments c objMatch time ↔
      (i < (maskFilter objMatch c.tStart).length ∧
       (maskFilter objMatch c.tStart).getD i 0 ≤ time ∧
       time < (maskFilter objMatch c.tEnd).getD i 0)) ∧
    getEphemerides exPrim exCoeffs 0 (some [1]) =
      .ok ⟨[1], [0], [5], [14], [3], [2], [4], [6], [8]⟩ ∧
    getEphemerides exPrim exCoeffs 1 (some [1]) =
      .ok ⟨[1], [1], [0], [0], [0], [0], [0], [0], [0]⟩ := by
  refine ⟨?_, by with_unfolding_all rfl, by with_unfolding_all rfl⟩
  simp [matchedSegments, List.mem_filter, List.mem_range, and_assoc]

/-- Witness for C2: on the concrete table, the stored segment is selected at
its `tStart` and the query succeeds with the evaluated values. -/
theorem getEphemerides_right_open_lookup_witness :
    0 ∈ matchedSegments exCoeffs [true] 0 ∧
    getEphemerides exPrim exCoeffs 0 (some [1]) =
      .ok ⟨[1], [0], [5], [14], [3], [2], [4], [6], [8]⟩ :=
  ⟨(getEphemerides_right_open_lookup exCoeffs [true] 0 0).1.mpr
      (by refine ⟨?_, ?_, ?_⟩ <;> with_unfolding_all decide),
   (getEphemerides_right_open_lookup exCoeffs [true] 0 0).2.1⟩

/-- C8: loading a persisted coefficient table rebuilds exactly the state
that `setCoefficients` produces from the corresponding in-memory fit — the
same per-quantity `[segment, coefficient]` arrays and the same dictionary —
and in both paths the derived `meanRA`/`meanDec` entries are the degree-0
coefficients of every segment of the `ra`/`dec` expansions. -/
theorem readCoefficients_matches_setCoefficients (file : CoeffFile)
    (kra kdec kdelta kvmag kelong : ℕ)
    (hra0 : 0 < kra) (hdec0 : 0 < kdec) (hdelta0 : 0 < kdelta)
    (hvmag0 : 0 < kvmag) (helong0 : 0 < kelong)
    (hra : ∀ r ∈ file.ra, r.length = kra)
    (hdec : ∀ r ∈ file.dec, r.length = kdec)
    (hdelta : ∀ r ∈ file.delta, r.length = kdelta)
    (hvmag : ∀ r ∈ file.vmag, r.length = kvmag)
    (helong : ∀ r ∈ file.elongation, r.length = kelong) :
    readCoefficients file =
      (setCoefficients ⟨[]⟩
        [("objId", .oneD file.objId), ("tStart", .oneD file.tStart),
         ("tEnd", .oneD file.tEnd), ("ra", .twoD file.ra),
         ("dec", .twoD file.dec), ("delta", .twoD file.delta),
         ("vmag", .twoD file.vmag), ("elongation", .twoD file.elongation)]).1 ∧
    (setCoefficients ⟨[]⟩
        [("objId", .oneD file.objId), ("tStart", .oneD file.tStart),
         ("tEnd", .oneD file.tEnd), ("ra", .twoD file.ra),
         ("dec", .twoD file.dec), ("delta", .twoD file.delta),
         ("vmag", .twoD file.vmag), ("elongation", .twoD file.elongation)]).2 = none ∧
    (readCoefficients file).coeffs.lookup "meanRA" =
      some (.oneD (file.ra.map (fun row => row.getD 0 0))) ∧
    (readCoefficients file).coeffs.lookup "meanDec" =
      some (.oneD (file.dec.map (fun row => row.getD 0 0))) := by
  have hset : setCoefficients ⟨[]⟩
      [("objId", .oneD file.objId), ("tStart", .oneD file.tStart),
       ("tEnd", .oneD file.tEnd), ("ra", .twoD file.ra),
       ("dec", .twoD file.dec), ("delta", .twoD file.delta),
       ("vmag", .twoD file.vmag), ("elongation", .twoD file.elongation)] =
      (⟨[("objId", .oneD file.objId), ("tStart", .oneD file.tStart),
         ("tEnd", .oneD file.tEnd), ("ra", .twoD file.ra),
         ("dec", .twoD file.dec), ("delta", .twoD file.delta),
         ("vmag", .twoD file.vmag), ("elongation", .twoD file.elongation),
         ("meanRA", .oneD ((swapaxes file.ra).getD 0 [])),
         ("meanDec", .oneD ((swapaxes file.dec).getD 0 []))]⟩, none) := by
    with_unfolding_all rfl
  have hmeanRA : (readCoefficients file).coeffs.lookup "meanRA" =
      some (.oneD ((swapaxes file.ra).getD 0 [])) := by
    with_unfolding_all rfl
  have hmeanDec : (readCoefficients file).coeffs.lookup "meanDec" =
      some (.oneD ((swapaxes file.dec).getD 0 [])) := by
    with_unfolding_all rfl
  refine ⟨?_, ?_, ?_, ?_⟩
  · rw [hset]
    show readCoefficients file = ⟨_⟩
    unfold readCoefficients
    rw [swapaxes_swapaxes file.ra kra hra0 hra,
      swapaxes_swapaxes file.dec kdec hdec0 hdec,
      swapaxes_swapaxes file.delta kdelta hdelta0 hdelta,
      swapaxes_swapaxes file.vmag kvmag hvmag0 hvmag,
      swapaxes_swapaxes file.elongation kelong helong0 helong]
  · rw [hset]
  · rw [hmeanRA, swapaxes_row_zero file.ra kra hra0 hra]
  · rw [hmeanDec, swapaxes_row_zero file.dec kdec hdec0 hdec]

/-- A concrete one-segment coefficient file used to instantiate C8. -/
def exFile : CoeffFile :=
  { objId := [1]
    tStart := [0]
    tEnd := [1]
    ra := [[1, 2]]
    dec := [[3, 4]]
    delta := [[5]]
    vmag := [[6]]
    elongation := [[7]] }

/-- Witness for C8: on the concrete one-segment file, the loaded `meanRA`
column is the degree-0 RA coefficient of the segment. -/
theorem readCoefficients_matches_setCoefficients_witness :
    (readCoefficients exFile).coeffs.lookup "meanRA" =
      some (.oneD (exFile.ra.map (fun row => row.getD 0 0))) :=
  (readCoefficients_matches_setCoefficients exFile 2 2 1 1 1
    (by norm_num) (by norm_num) (by norm_num) (by norm_num) (by norm_num)
    (fun r hr => by simp only [exFile, List.mem_singleton] at hr; subst hr; rfl)
    (fun r hr => by simp only [exFile, List.mem_singleton] at hr; subst hr; rfl)
    (fun r hr => by simp only [exFile, List.mem_singleton] at hr; subst hr; rfl)
    (fun r hr => by simp only [exFile, List.mem_singleton] at hr; subst hr; rfl)
    (fun r hr => by simp only [exFile, List.mem_singleton] at hr; subst hr; rfl)).2.2.1

/-- C10: `setCoefficients` is not atomic on error: the supplied dictionary
is installed as `self.coeffs` before the required keys are checked, so when
the validation error is raised the resulting object holds the new,
incomplete coefficient set — independently of whatever the previous state
`s` was — and no `meanRA`/`meanDec` entries are added. -/
theorem setCoefficients_not_atomic (s : ChebyValuesState) (input : CoeffDict)
    (hmiss : coeffKeys.all (fun k => (input.map Prod.fst).contains k) = false) :
    setCoefficients s input =
      (⟨input⟩,
       some "Did not receive all expected coefficient keys from chebyFitsCoefficients") := by
  simp only [setCoefficients, hmiss, Bool.false_eq_true, if_false]

/-- Witness for C10: a dictionary holding only a `ra` entry is rejected, and
the rejected object retains exactly that incomplete dictionary in place of
its previous coefficients. -/
theorem setCoefficients_not_atomic_witness :
    setCoefficients ⟨[("objId", .oneD [1])]⟩ [("ra", .twoD [[1]])] =
      (⟨[("ra", .twoD [[1]])]⟩,
       some "Did not receive all expected coefficient keys from chebyFitsCoefficients") :=
  setCoefficients_not_atomic ⟨[("objId", .oneD [1])]⟩ [("ra", .twoD [[1]])]
    (by with_unfolding_all rfl)

end MovingObjects
